import Mathlib

/-!
Verification of the query-state synchronization logic of the school-payment
dashboard client.

The development shallowly embeds the client's query-state model, URL codec,
HTTP query-string construction, status-lookup validation and the response
interceptor, translated from:
  src/src/pages/Dashboard.tsx
  src/src/pages/Transactions.tsx
  src/src/pages/StatusCheck.tsx
  src/src/services/api.ts
  the two SchoolTransactions variants (unnamed source files).

Modelling conventions:
  - JavaScript strings are `List Char` (named `Str` below); string operations
    (split, join, trim, parseInt) are defined to match their JS semantics.
  - JavaScript numbers that arise here are either integers or NaN, so they
    are modelled as `Option Int` (named `JSNum`), with `none` standing for
    NaN.  JS comparisons on NaN (`NaN > 1` is false, `NaN !== 10` is true)
    are reproduced by the corresponding operations.
  - A TS optional string/array field that is `undefined` is modelled as the
    empty string / empty list: both are falsy, and every use in this code is
    a truthiness test, so the identification is exact.
  - URLSearchParams bags are association lists `List (Str × Str)`; `get`
    returns the first binding (`getParam`), `set` on a fresh bag with
    distinct keys is list concatenation.
-/

/-- JavaScript strings, modelled as lists of characters. -/
abbrev Str := List Char

/-- Coerce a Lean string literal to the `Str` model. -/
def str (s : String) : Str := s.data

/-- JavaScript numbers as they occur in this client: an integer or NaN. -/
abbrev JSNum := Option Int

/-- JS `x > 1` (false when x is NaN). -/
def jsGtOne : JSNum → Bool
  | none => false
  | some n => decide (1 < n)

/-- JS `x !== 10` (true when x is NaN). -/
def jsNeTen : JSNum → Bool
  | none => true
  | some n => decide (n ≠ 10)

/-- The whitespace characters recognised by JS `trim` / `parseInt`
(ASCII fragment; the code never feeds exotic Unicode spaces). -/
def isSpaceChar (c : Char) : Bool :=
  c == ' ' || c == '\t' || c == '\n' || c == '\r' || c == '\x0b' || c == '\x0c'

/-- Decimal digits of a natural number, fuelled so that the definition
reduces inside the kernel.  `natToCharsAux (n+1) n` is total for `n`. -/
def natToCharsAux : Nat → Nat → List Char
  | 0, _ => []
  | fuel + 1, n =>
    if n < 10 then [Nat.digitChar n]
    else natToCharsAux fuel (n / 10) ++ [Nat.digitChar (n % 10)]

/-- Decimal representation of a natural number (JS `Number.toString` on a
non-negative integer). -/
def natToChars (n : Nat) : List Char := natToCharsAux (n + 1) n

/-- JS `Number.prototype.toString` on the numbers this client handles. -/
def jsNumToString : JSNum → Str
  | none => str "NaN"
  | some n => if n < 0 then '-' :: natToChars (-n).toNat else natToChars n.toNat

/-- Hexadecimal digit? (for the `0x` branch of JS `parseInt`). -/
def isHexDigit (c : Char) : Bool :=
  c.isDigit || ('a' ≤ c && c ≤ 'f') || ('A' ≤ c && c ≤ 'F')

/-- Value of a hexadecimal digit. -/
def hexVal (c : Char) : Nat :=
  if c.isDigit then c.toNat - 48
  else if 'a' ≤ c && c ≤ 'f' then c.toNat - 87
  else c.toNat - 55

/-- Parse the maximal leading run of digits of the given class; `none` when
there is no digit at all (JS parseInt yields NaN then). -/
def parseLeadingNat (isD : Char → Bool) (radix : Nat) (val : Char → Nat) (s : Str) :
    Option Nat :=
  let ds := s.takeWhile isD
  if ds.isEmpty then none else some (ds.foldl (fun a c => radix * a + val c) 0)

/-- Digit run with optional `0x`/`0X` radix-16 marker, as JS `parseInt`
auto-detects when no radix argument is passed. -/
def parseRadixNat (s : Str) : Option Nat :=
  if s.take 2 = ['0', 'x'] ∨ s.take 2 = ['0', 'X'] then
    parseLeadingNat isHexDigit 16 hexVal (s.drop 2)
  else parseLeadingNat Char.isDigit 10 (fun c => c.toNat - 48) s

/-- JS `parseInt(s)` with no radix argument: skip leading whitespace, read an
optional sign, then the maximal digit run; NaN (`none`) when no digit
follows.  Trailing garbage is ignored. -/
def jsParseInt (s : Str) : Option Int :=
  let t := s.dropWhile isSpaceChar
  if t.head? = some '-' then (parseRadixNat t.tail).map (fun n => -(n : Int))
  else if t.head? = some '+' then (parseRadixNat t.tail).map (fun n => (n : Int))
  else (parseRadixNat t).map (fun n => (n : Int))

/-- JS `a || b` on strings: `a` unless it is empty (falsy). -/
def jsOrStr (o : Option Str) (d : Str) : Str :=
  match o with
  | some v => if v.isEmpty then d else v
  | none => d

/-- JS `String.prototype.split(',')` (single-character separator). -/
def splitComma : Str → List Str
  | [] => [[]]
  | c :: cs =>
    let r := splitComma cs
    if c = ',' then [] :: r else (c :: r.headD []) :: r.tail

/-- JS `Array.prototype.join(',')`. -/
def joinComma : List Str → Str
  | [] => []
  | [x] => x
  | x :: xs => x ++ ',' :: joinComma xs

/-- JS `String.prototype.trim`. -/
def jsTrim (s : Str) : Str :=
  ((s.dropWhile isSpaceChar).reverse.dropWhile isSpaceChar).reverse

/-! ## Data model (src/src/types, as used by the pages and the API client) -/

/-- `FilterOptions` from src/src/types: optional fields absent in a given view
are modelled as empty (see the conventions above). -/
structure FilterOptions where
  status : List Str
  schoolIds : List Str
  search : Str
  dateFrom : Str
  dateTo : Str
deriving DecidableEq

/-- `SortOptions` from src/src/types.  The TS type narrows `direction` to
the literals asc/desc, but the narrowing is erased at runtime and the URL
hydration casts an arbitrary parameter string into it, so the model keeps
`direction : Str`. -/
structure SortOptions where
  field : Str
  direction : Str
deriving DecidableEq

/-- `PaginationOptions` from src/src/types (request-side page/limit). -/
structure PaginationOptions where
  page : JSNum
  limit : JSNum
deriving DecidableEq

/-- Server-reported pagination metadata kept in each view's `pagination`
state. -/
structure PaginationMeta where
  currentPage : JSNum
  totalPages : Int
  totalCount : Int
  hasNextPage : Bool
  hasPrevPage : Bool
deriving DecidableEq

def emptyFilters : FilterOptions :=
  { status := [], schoolIds := [], search := [], dateFrom := [], dateTo := [] }

/-! ## URLSearchParams as an association list -/

/-- `URLSearchParams.get`: first binding of the key, or null (`none`). -/
def getParam : List (Str × Str) → Str → Option Str
  | [], _ => none
  | (k, v) :: rest, key => if k = key then some v else getParam rest key

/-- One conditional `params.set(k, v)` step of the serializers: a fresh bag
is built by consecutive `set` calls on distinct keys, i.e. by concatenating
these singleton-or-empty chunks. -/
def pIf (c : Bool) (k v : Str) : List (Str × Str) :=
  if c then [(k, v)] else []

/-! ## Dashboard.tsx: URL codec -/

namespace Dashboard

/-- `updateURLParams` (src/src/pages/Dashboard.tsx lines 50-66).  The
function closes over the component's `rowsPerPage`; here it is passed
explicitly, together with the `currentPage` of the `newPagination`
argument (the only field the source reads). -/
def updateURLParams (newFilters : FilterOptions) (newSort : SortOptions)
    (currentPage : JSNum) (rowsPerPage : JSNum) : List (Str × Str) :=
  pIf (!newFilters.search.isEmpty) (str "search") newFilters.search ++
  pIf (!newFilters.status.isEmpty) (str "status") (joinComma newFilters.status) ++
  pIf (!newFilters.schoolIds.isEmpty) (str "schoolIds") (joinComma newFilters.schoolIds) ++
  pIf (!newFilters.dateFrom.isEmpty) (str "dateFrom") newFilters.dateFrom ++
  pIf (!newFilters.dateTo.isEmpty) (str "dateTo") newFilters.dateTo ++
  pIf (!newSort.field.isEmpty) (str "sortField") newSort.field ++
  pIf (!newSort.direction.isEmpty) (str "sortDirection") newSort.direction ++
  pIf (jsGtOne currentPage) (str "page") (jsNumToString currentPage) ++
  pIf (jsNeTen rowsPerPage) (str "limit") (jsNumToString rowsPerPage)

/-- The Query State of the Dashboard view: the URL-hydrated/serialized
fields (filters, sort, page, page size). -/
structure QueryState where
  filters : FilterOptions
  sort : SortOptions
  currentPage : JSNum
  rowsPerPage : JSNum
deriving DecidableEq

/-- The URL-parameter hydration performed on mount: the `useState`
initializers of Dashboard.tsx lines 23-46 plus the `rowsPerPage`
initializer (line 45). -/
def hydrateFromURL (params : List (Str × Str)) : QueryState :=
  { filters :=
      { status :=
          match getParam params (str "status") with
          | some v => splitComma v
          | none => []
        schoolIds :=
          match getParam params (str "schoolIds") with
          | some v => splitComma v
          | none => []
        search := jsOrStr (getParam params (str "search")) []
        dateFrom := jsOrStr (getParam params (str "dateFrom")) []
        dateTo := jsOrStr (getParam params (str "dateTo")) [] }
    sort :=
      { field := jsOrStr (getParam params (str "sortField")) (str "payment_time")
        direction := jsOrStr (getParam params (str "sortDirection")) (str "desc") }
    currentPage := jsParseInt (jsOrStr (getParam params (str "page")) (str "1"))
    rowsPerPage := jsParseInt (jsOrStr (getParam params (str "limit")) (str "10")) }

/-- Serialization of a Query State: what the mounted component writes back
into the address bar. -/
def encode (s : QueryState) : List (Str × Str) :=
  updateURLParams s.filters s.sort s.currentPage s.rowsPerPage

end Dashboard

/-! ## Declared domains (section 3 of the specification) -/

/-- The declared status domain: subset of success/pending/failed/cancelled. -/
def statusLits : List Str :=
  [str "success", str "pending", str "failed", str "cancelled"]

/-- The sortable columns of the Dashboard table (the SortButton fields)
together with the default payment_time. -/
def sortableFields : List Str :=
  [str "payment_time", str "collect_id", str "school_id", str "gateway",
   str "order_amount", str "transaction_amount", str "status", str "custom_order_id"]

/-- A positive integer (in particular, not NaN). -/
def jsPosInt : JSNum → Bool
  | none => false
  | some n => decide (1 ≤ n)

namespace Dashboard

/-- The declared domain of a Query State, exactly as the round-trip claim
spells it out: statuses a subset of the four literals, positive page and
page size, comma-free search and date strings, a sortable sort column and
an asc/desc direction.  (School ids are only constrained to be strings.) -/
def inDeclaredDomain (s : QueryState) : Prop :=
  (∀ x ∈ s.filters.status, x ∈ statusLits) ∧
  jsPosInt s.currentPage = true ∧
  jsPosInt s.rowsPerPage = true ∧
  ',' ∉ s.filters.search ∧
  ',' ∉ s.filters.dateFrom ∧
  ',' ∉ s.filters.dateTo ∧
  s.sort.field ∈ sortableFields ∧
  (s.sort.direction = str "asc" ∨ s.sort.direction = str "desc")

instance (s : QueryState) : Decidable (inDeclaredDomain s) := by
  unfold inDeclaredDomain; infer_instance

end Dashboard

/-! ## Shared sort-header logic

All four list views define the same handleSort body:
direction = (sort.field === field && sort.direction === 'asc') ? 'desc' : 'asc'. -/

def sortStep (sort : SortOptions) (field : Str) : SortOptions :=
  { field := field
    direction :=
      if sort.field = field ∧ sort.direction = str "asc" then str "desc"
      else str "asc" }

/-! ## Transactions.tsx -/

namespace Transactions

structure ViewState where
  pagination : PaginationMeta
  filters : FilterOptions
  sort : SortOptions
  showFilters : Bool
deriving DecidableEq

/-- handleSearch (Transactions.tsx lines 71-74). -/
def handleSearch (value : Str) (st : ViewState) : ViewState :=
  { st with
    filters := { st.filters with search := value }
    pagination := { st.pagination with currentPage := some 1 } }

/-- handleStatusFilter (Transactions.tsx lines 76-83): toggles the status
in the filter set. -/
def handleStatusFilter (status : Str) (st : ViewState) : ViewState :=
  let newStatus :=
    if st.filters.status.contains status then
      st.filters.status.filter (fun s => s != status)
    else st.filters.status ++ [status]
  { st with
    filters := { st.filters with status := newStatus }
    pagination := { st.pagination with currentPage := some 1 } }

/-- handleSchoolFilter (Transactions.tsx lines 85-92): toggles the school
id in the filter set. -/
def handleSchoolFilter (schoolId : Str) (st : ViewState) : ViewState :=
  let newSchoolIds :=
    if st.filters.schoolIds.contains schoolId then
      st.filters.schoolIds.filter (fun s => s != schoolId)
    else st.filters.schoolIds ++ [schoolId]
  { st with
    filters := { st.filters with schoolIds := newSchoolIds }
    pagination := { st.pagination with currentPage := some 1 } }

/-- handleSort (Transactions.tsx lines 94-99). -/
def handleSort (field : Str) (st : ViewState) : ViewState :=
  { st with sort := sortStep st.sort field }

/-- clearFilters (Transactions.tsx lines 101-104): replaces the filter
object by the empty one (the view never sets date fields, and the replaced
object carries none). -/
def clearFilters (st : ViewState) : ViewState :=
  { st with
    filters := emptyFilters
    pagination := { st.pagination with currentPage := some 1 } }

end Transactions

/-! ## Dashboard.tsx view handlers -/

namespace Dashboard

/-- The Dashboard component's state (rowsPerPage is a constant derived
from the URL, not a piece of useState). -/
structure ViewState where
  pagination : PaginationMeta
  filters : FilterOptions
  sort : SortOptions
  selectedStatus : Str
deriving DecidableEq

/-- handleSearch (Dashboard.tsx lines 102-107). -/
def handleSearch (value : Str) (st : ViewState) : ViewState :=
  { st with
    filters := { st.filters with search := value }
    pagination := { st.pagination with currentPage := some 1 } }

/-- handleSort (Dashboard.tsx lines 109-116). -/
def handleSort (field : Str) (st : ViewState) : ViewState :=
  { st with sort := sortStep st.sort field }

/-- handleStatusFilterChange (Dashboard.tsx lines 119-129): the status
dropdown writes a one-element (or empty) status filter and resets the
page. -/
def handleStatusFilterChange (statusFilter : Str) (st : ViewState) : ViewState :=
  { st with
    selectedStatus := statusFilter
    filters :=
      { st.filters with
        status := if statusFilter.isEmpty then [] else [statusFilter] }
    pagination := { st.pagination with currentPage := some 1 } }

/-- The inline dateFrom input handler (Dashboard.tsx lines 186-191). -/
def handleDateFromChange (value : Str) (st : ViewState) : ViewState :=
  { st with
    filters := { st.filters with dateFrom := value }
    pagination := { st.pagination with currentPage := some 1 } }

end Dashboard

/-! ## SchoolTransactions, basic variant (first unnamed source file) -/

namespace SchoolTransactionsBasic

structure ViewState where
  selectedSchoolId : Str
  pagination : PaginationMeta
  filters : FilterOptions
  sort : SortOptions
  showFilters : Bool
deriving DecidableEq

def handleSchoolChange (schoolId : Str) (st : ViewState) : ViewState :=
  { st with
    selectedSchoolId := schoolId
    pagination := { st.pagination with currentPage := some 1 } }

def handleSearch (value : Str) (st : ViewState) : ViewState :=
  { st with
    filters := { st.filters with search := value }
    pagination := { st.pagination with currentPage := some 1 } }

def handleStatusFilter (status : Str) (st : ViewState) : ViewState :=
  let newStatus :=
    if st.filters.status.contains status then
      st.filters.status.filter (fun s => s != status)
    else st.filters.status ++ [status]
  { st with
    filters := { st.filters with status := newStatus }
    pagination := { st.pagination with currentPage := some 1 } }

def handleSort (field : Str) (st : ViewState) : ViewState :=
  { st with sort := sortStep st.sort field }

/-- clearFilters of the basic school view: replaces the filter object by
the status/search-only empty object (the other fields were never set in
this view, so the replacement is the empty filter record). -/
def clearFilters (st : ViewState) : ViewState :=
  { st with
    filters := emptyFilters
    pagination := { st.pagination with currentPage := some 1 } }

end SchoolTransactionsBasic

/-! ## SchoolTransactions, URL-synchronized variant (second unnamed source
file) -/

namespace SchoolTransactionsUrl

structure ViewState where
  selectedSchoolId : Str
  pagination : PaginationMeta
  filters : FilterOptions
  sort : SortOptions
  rowsPerPage : JSNum
  selectedFilter : Str
  selectedDate : Str
  selectedStatus : Str
deriving DecidableEq

/-- updateURLParams of the URL-synchronized school view (lines 438-455 of
the unnamed source): closes over selectedSchoolId, rowsPerPage,
selectedFilter, selectedDate and selectedStatus, passed here through the
component state `st`. -/
def updateURLParams (st : ViewState) (newFilters : FilterOptions)
    (newSort : SortOptions) (currentPage : JSNum) : List (Str × Str) :=
  pIf (!st.selectedSchoolId.isEmpty) (str "schoolId") st.selectedSchoolId ++
  pIf (!newFilters.search.isEmpty) (str "search") newFilters.search ++
  pIf (!newFilters.status.isEmpty) (str "status") (joinComma newFilters.status) ++
  pIf (!newFilters.dateFrom.isEmpty) (str "dateFrom") newFilters.dateFrom ++
  pIf (!newFilters.dateTo.isEmpty) (str "dateTo") newFilters.dateTo ++
  pIf (!newSort.field.isEmpty) (str "sortField") newSort.field ++
  pIf (!newSort.direction.isEmpty) (str "sortDirection") newSort.direction ++
  pIf (jsGtOne currentPage) (str "page") (jsNumToString currentPage) ++
  pIf (jsNeTen st.rowsPerPage) (str "limit") (jsNumToString st.rowsPerPage) ++
  pIf (!st.selectedFilter.isEmpty) (str "filterBy") st.selectedFilter ++
  pIf (!st.selectedDate.isEmpty) (str "dateFilter") st.selectedDate ++
  pIf (!st.selectedStatus.isEmpty) (str "statusFilter") st.selectedStatus

def handleSchoolChange (schoolId : Str) (st : ViewState) : ViewState :=
  { st with
    selectedSchoolId := schoolId
    pagination := { st.pagination with currentPage := some 1 } }

def handleSearch (value : Str) (st : ViewState) : ViewState :=
  { st with
    filters := { st.filters with search := value }
    pagination := { st.pagination with currentPage := some 1 } }

def handleSort (field : Str) (st : ViewState) : ViewState :=
  { st with sort := sortStep st.sort field }

def handleRowsPerPageChange (newRowsPerPage : JSNum) (st : ViewState) : ViewState :=
  { st with
    rowsPerPage := newRowsPerPage
    pagination := { st.pagination with currentPage := some 1 } }

def handleFilterByChange (filterBy : Str) (st : ViewState) : ViewState :=
  { st with selectedFilter := filterBy }

def handleDateFilterChange (dateFilter : Str) (st : ViewState) : ViewState :=
  { st with selectedDate := dateFilter }

/-- handleStatusFilterChange (lines 523-530 of the unnamed source): writes
selectedStatus, and when it is non-empty also writes the status filter —
but, unlike every other filter mutator, never touches pagination. -/
def handleStatusFilterChange (statusFilter : Str) (st : ViewState) : ViewState :=
  if statusFilter.isEmpty then { st with selectedStatus := statusFilter }
  else
    { st with
      selectedStatus := statusFilter
      filters := { st.filters with status := [statusFilter] } }

end SchoolTransactionsUrl

/-! ## src/src/services/api.ts: the transaction service -/

/-- An outgoing GET request: path and query parameters (URLSearchParams in
insertion order; URLSearchParams.toString renders them as k=v joined by
ampersands, so a pair in this list is exactly one occurrence of the key in
the query string). -/
structure Request where
  path : Str
  params : List (Str × Str)
deriving DecidableEq

namespace transactionService

/-- getAllTransactions (api.ts lines 61-98): page/limit from the
URLSearchParams constructor, then appends — sortBy/sortOrder, one `status`
pair per status value, one `school_id` pair per school id, then the
optional date and search parameters. -/
def getAllTransactions (pagination : PaginationOptions)
    (sort : Option SortOptions) (filters : Option FilterOptions) : Request :=
  { path := str "/transactions"
    params :=
      [(str "page", jsNumToString pagination.page),
       (str "limit", jsNumToString pagination.limit)]
      ++ (match sort with
          | some s => [(str "sortBy", s.field), (str "sortOrder", s.direction)]
          | none => [])
      ++ (match filters with
          | some f =>
              f.status.map (fun s => (str "status", s))
              ++ f.schoolIds.map (fun id => (str "school_id", id))
              ++ pIf (!f.dateFrom.isEmpty) (str "dateFrom") f.dateFrom
              ++ pIf (!f.dateTo.isEmpty) (str "dateTo") f.dateTo
              ++ pIf (!f.search.isEmpty) (str "search") f.search
          | none => []) }

/-- getTransactionsBySchool (api.ts lines 100-134): the school id goes
into the path; the query parameters are those of getAllTransactions minus
the school_id pairs — filters.schoolIds is never read. -/
def getTransactionsBySchool (schoolId : Str) (pagination : PaginationOptions)
    (sort : Option SortOptions) (filters : Option FilterOptions) : Request :=
  { path := str "/transactions/school/" ++ schoolId
    params :=
      [(str "page", jsNumToString pagination.page),
       (str "limit", jsNumToString pagination.limit)]
      ++ (match sort with
          | some s => [(str "sortBy", s.field), (str "sortOrder", s.direction)]
          | none => [])
      ++ (match filters with
          | some f =>
              f.status.map (fun s => (str "status", s))
              ++ pIf (!f.dateFrom.isEmpty) (str "dateFrom") f.dateFrom
              ++ pIf (!f.dateTo.isEmpty) (str "dateTo") f.dateTo
              ++ pIf (!f.search.isEmpty) (str "search") f.search
          | none => []) }

/-- getTransactionStatus (api.ts lines 136-139): the request path for a
status lookup. -/
def getTransactionStatus (customOrderId : Str) : Str :=
  str "/transactions/status/" ++ customOrderId

end transactionService

/-- The values carried by repeated occurrences of one key in a parameter
list, in order. -/
def paramValues (ps : List (Str × Str)) (k : Str) : List Str :=
  ps.filterMap (fun kv => if kv.1 = k then some kv.2 else none)

/-! ## StatusCheck.tsx -/

namespace StatusCheck

/-- handleSearch (StatusCheck.tsx lines 19-37), reduced to its observable
effect before any response arrives: the list of GET requests issued (by
path) and the synchronous validation error, if any.  The guard is the JS
truthiness test on the trimmed identifier. -/
def handleSearch (orderId : Str) : List Str × Option Str :=
  if (jsTrim orderId).isEmpty then
    ([], some (str "Please enter a transaction ID"))
  else ([transactionService.getTransactionStatus orderId], none)

end StatusCheck

/-! ## api.ts response interceptor -/

/-- The two persistent credential cells the interceptor manages
(localStorage keys token and user). -/
structure LocalStorage where
  token : Option Str
  user : Option Str
deriving DecidableEq

/-- The error branch of api.interceptors.response.use (api.ts lines
31-41): on a 401 response status it removes both credential keys and
navigates to /login; any other (or absent) status leaves storage and
location unchanged.  `status` is `error.response?.status` — `none` when
the error carries no response. -/
def responseInterceptorOnError (status : Option Int) (store : LocalStorage)
    (location : Str) : LocalStorage × Str :=
  if status = some 401 then
    ({ store with token := none, user := none }, str "/login")
  else (store, location)

/-! ## Concrete states used by witnesses and counterexamples -/

def c1WitnessState : Dashboard.QueryState :=
  { filters :=
      { status := [str "success", str "failed"]
        schoolIds := [str "65b0e6293e9f76a9694d84b4"]
        search := str "xy", dateFrom := str "2024-01-01", dateTo := [] }
    sort := { field := str "status", direction := str "asc" }
    currentPage := some 3, rowsPerPage := some 25 }

def c1CounterexampleState : Dashboard.QueryState :=
  { filters :=
      { status := [], schoolIds := [str "a,b"]
        search := [], dateFrom := [], dateTo := [] }
    sort := { field := str "payment_time", direction := str "desc" }
    currentPage := some 1, rowsPerPage := some 10 }

/-- The default Query State: empty filters, page 1, payment_time descending,
page size 10. -/
def defaultQueryState : Dashboard.QueryState :=
  { filters := emptyFilters
    sort := { field := str "payment_time", direction := str "desc" }
    currentPage := some 1, rowsPerPage := some 10 }

def defaultSchoolUrlState : SchoolTransactionsUrl.ViewState :=
  { selectedSchoolId := []
    pagination :=
      { currentPage := some 1, totalPages := 1, totalCount := 0
        hasNextPage := false, hasPrevPage := false }
    filters := emptyFilters
    sort := { field := str "payment_time", direction := str "desc" }
    rowsPerPage := some 10
    selectedFilter := [], selectedDate := [], selectedStatus := [] }

def c3State : SchoolTransactionsUrl.ViewState :=
  { defaultSchoolUrlState with
    pagination := { defaultSchoolUrlState.pagination with currentPage := some 5 } }

/-- The parameter keys the Dashboard hydration recognises. -/
def recognizedKeys : List Str :=
  [str "status", str "schoolIds", str "search", str "dateFrom", str "dateTo",
   str "sortField", str "sortDirection", str "page", str "limit"]

section ParsingLemmas

theorem natToCharsAux_congr :
    ∀ fuel₁ n, n < fuel₁ → ∀ fuel₂, n < fuel₂ →
      natToCharsAux fuel₁ n = natToCharsAux fuel₂ n := by
  intro fuel₁
  induction fuel₁ with
  | zero => intro n h; omega
  | succ f ih =>
    intro n _ fuel₂ h₂
    cases fuel₂ with
    | zero => omega
    | succ f₂ =>
      simp only [natToCharsAux]
      by_cases h10 : n < 10
      · simp [h10]
      · have hd : n / 10 < n := Nat.div_lt_self (by omega) (by omega)
        simp only [h10, if_false]
        rw [ih (n / 10) (by omega) f₂ (by omega)]

theorem natToChars_unfold (n : Nat) :
    natToChars n =
      if n < 10 then [Nat.digitChar n]
      else natToChars (n / 10) ++ [Nat.digitChar (n % 10)] := by
  show natToCharsAux (n + 1) n = _
  simp only [natToCharsAux]
  by_cases h10 : n < 10
  · simp [h10]
  · have hd : n / 10 < n := Nat.div_lt_self (by omega) (by omega)
    simp only [h10, if_false]
    rw [natToCharsAux_congr n (n / 10) (by omega) (n / 10 + 1) (by omega)]
    rfl

theorem toNat_digitChar (d : Nat) (h : d < 10) : (Nat.digitChar d).toNat = 48 + d := by
  interval_cases d <;> rfl

theorem isDigit_digitChar (d : Nat) (h : d < 10) : (Nat.digitChar d).isDigit = true := by
  interval_cases d <;> rfl

theorem natToChars_ne_nil (n : Nat) : natToChars n ≠ [] := by
  induction n using Nat.strong_induction_on with
  | _ n ih =>
    rw [natToChars_unfold]
    by_cases h10 : n < 10
    · simp [h10]
    · simp [h10]

theorem natToChars_all_digits (n : Nat) :
    ∀ c ∈ natToChars n, c.isDigit = true := by
  induction n using Nat.strong_induction_on with
  | _ n ih =>
    rw [natToChars_unfold]
    by_cases h10 : n < 10
    · simp only [h10, if_true, List.mem_singleton]
      intro c hc; subst hc; exact isDigit_digitChar n h10
    · simp only [h10, if_false, List.mem_append, List.mem_singleton]
      intro c hc
      rcases hc with hc | hc
      · exact ih (n / 10) (Nat.div_lt_self (by omega) (by omega)) c hc
      · subst hc; exact isDigit_digitChar (n % 10) (Nat.mod_lt n (by omega))

theorem natToChars_head_ne_zero (n : Nat) (hn : 1 ≤ n) :
    ∀ c t, natToChars n = c :: t → c ≠ '0' := by
  induction n using Nat.strong_induction_on with
  | _ n ih =>
    rw [natToChars_unfold]
    by_cases h10 : n < 10
    · simp only [h10, if_true]
      intro c t h
      cases h
      interval_cases n <;> simp_all <;> decide
    · simp only [h10, if_false]
      intro c t h
      have hne := natToChars_ne_nil (n / 10)
      cases hrec : natToChars (n / 10) with
      | nil => exact absurd hrec hne
      | cons c' t' =>
        rw [hrec] at h
        simp only [List.cons_append, List.cons.injEq] at h
        obtain ⟨rfl, -⟩ := h
        exact ih (n / 10) (Nat.div_lt_self (by omega) (by omega)) (by omega) c' t' hrec

theorem natToChars_foldl (n : Nat) :
    ∀ a : Nat,
      (natToChars n).foldl (fun acc c => 10 * acc + (c.toNat - 48)) a
        = a * 10 ^ (natToChars n).length + n := by
  induction n using Nat.strong_induction_on with
  | _ n ih =>
    intro a
    rw [natToChars_unfold]
    by_cases h10 : n < 10
    · simp only [h10, if_true, List.foldl_cons, List.foldl_nil, List.length_singleton]
      rw [toNat_digitChar n h10]
      omega
    · have hd : n / 10 < n := Nat.div_lt_self (by omega) (by omega)
      simp only [h10, if_false, List.foldl_append, List.foldl_cons, List.foldl_nil,
        List.length_append, List.length_singleton]
      rw [ih (n / 10) hd a, toNat_digitChar (n % 10) (Nat.mod_lt n (by omega))]
      have hmod : 10 * (n / 10) + n % 10 = n := Nat.div_add_mod n 10
      have : a * 10 ^ ((natToChars (n / 10)).length + 1)
          = a * 10 ^ (natToChars (n / 10)).length * 10 := by ring
      omega

theorem takeWhile_eq_self_of_all {p : Char → Bool} :
    ∀ l : List Char, (∀ c ∈ l, p c = true) → l.takeWhile p = l := by
  intro l h
  induction l with
  | nil => rfl
  | cons c cs ih =>
    have hc : p c = true := h c (by simp)
    have ht := ih fun x hx => h x (by simp [hx])
    simp [List.takeWhile_cons, hc, ht]

theorem not_space_of_digit {c : Char} (h : c.isDigit = true) : isSpaceChar c = false := by
  simp only [isSpaceChar, Bool.or_eq_false_iff, beq_eq_false_iff_ne, ne_eq]
  refine ⟨⟨⟨⟨⟨?_, ?_⟩, ?_⟩, ?_⟩, ?_⟩, ?_⟩ <;> rintro rfl <;> exact absurd h (by decide)

theorem parseRadixNat_digits (l : List Char) (hne : l ≠ [])
    (hd : ∀ c ∈ l, c.isDigit = true)
    (hz : ∀ c t, l = c :: t → c ≠ '0') :
    parseRadixNat l = some (l.foldl (fun a c => 10 * a + (c.toNat - 48)) 0) := by
  cases l with
  | nil => exact absurd rfl hne
  | cons c t =>
    have hcz : c ≠ '0' := hz c t rfl
    rw [parseRadixNat, if_neg]
    · rw [parseLeadingNat, takeWhile_eq_self_of_all _ hd]
      simp
    · intro hx
      rcases hx with hx | hx <;>
      · cases t <;> simp_all [List.take]

theorem jsParseInt_natToChars (n : Nat) (hn : 1 ≤ n) :
    jsParseInt (natToChars n) = some (n : Int) := by
  have hne := natToChars_ne_nil n
  have hdig := natToChars_all_digits n
  cases hrec : natToChars n with
  | nil => exact absurd hrec hne
  | cons c t =>
    have hc : c.isDigit = true := by
      apply hdig; rw [hrec]; simp
    have hspace : isSpaceChar c = false := not_space_of_digit hc
    have hcm : c ≠ '-' := by rintro rfl; exact absurd hc (by decide)
    have hcp : c ≠ '+' := by rintro rfl; exact absurd hc (by decide)
    have hdrop : List.dropWhile isSpaceChar (c :: t) = c :: t := by
      simp [List.dropWhile_cons, hspace]
    simp only [jsParseInt, hdrop, List.head?_cons, Option.some.injEq]
    rw [if_neg hcm, if_neg hcp]
    rw [parseRadixNat_digits (c :: t) (by simp) (by rw [← hrec]; exact hdig)
      (by rw [← hrec]; exact natToChars_head_ne_zero n hn), ← hrec, natToChars_foldl n 0]
    simp

theorem jsParseInt_jsNumToString_pos (n : Int) (hn : 1 ≤ n) :
    jsParseInt (jsNumToString (some n)) = some n := by
  rw [jsNumToString, if_neg (by omega)]
  rw [jsParseInt_natToChars n.toNat (by omega)]
  congr 1
  omega

end ParsingLemmas

section SplitJoinLemmas

theorem splitComma_ne_nil (s : Str) : splitComma s ≠ [] := by
  cases s with
  | nil => simp [splitComma]
  | cons c cs =>
    simp only [splitComma]
    by_cases h : c = ',' <;> simp [h]

theorem splitComma_nocomma_append (x : Str) (h : ∀ c ∈ x, c ≠ ',') (rest : Str) :
    splitComma (x ++ rest) =
      (x ++ (splitComma rest).headD []) :: (splitComma rest).tail := by
  induction x with
  | nil =>
    simp only [List.nil_append]
    cases hr : splitComma rest with
    | nil => exact absurd hr (splitComma_ne_nil rest)
    | cons a l => simp
  | cons c x' ih =>
    have hc : c ≠ ',' := h c (by simp)
    simp only [List.cons_append, splitComma, if_neg hc, List.append_eq]
    rw [ih fun d hd => h d (by simp [hd])]
    simp

theorem splitComma_joinComma (l : List Str) (hne : l ≠ [])
    (h : ∀ x ∈ l, ∀ c ∈ x, c ≠ ',') :
    splitComma (joinComma l) = l := by
  induction l with
  | nil => exact absurd rfl hne
  | cons x xs ih =>
    cases xs with
    | nil =>
      show splitComma (joinComma [x]) = [x]
      rw [joinComma]
      have := splitComma_nocomma_append x (h x (by simp)) []
      simpa [splitComma] using this
    | cons y ys =>
      show splitComma (x ++ ',' :: joinComma (y :: ys)) = x :: y :: ys
      rw [splitComma_nocomma_append x (h x (by simp)) (',' :: joinComma (y :: ys))]
      have hsplit : splitComma (',' :: joinComma (y :: ys))
          = [] :: splitComma (joinComma (y :: ys)) := by
        simp [splitComma]
      rw [hsplit, ih (by simp) fun z hz => h z (by simp [hz])]
      simp

end SplitJoinLemmas

section TrimLemmas

theorem all_space_of_dropWhile {l : List Char}
    (h : ∀ c ∈ l.dropWhile isSpaceChar, isSpaceChar c = true) :
    ∀ c ∈ l, isSpaceChar c = true := by
  intro c hc
  rw [← List.takeWhile_append_dropWhile (p := isSpaceChar) (l := l)] at hc
  rcases List.mem_append.mp hc with hc | hc
  · exact List.mem_takeWhile_imp hc
  · exact h c hc

theorem jsTrim_eq_nil_iff (s : Str) :
    jsTrim s = [] ↔ ∀ c ∈ s, isSpaceChar c = true := by
  rw [jsTrim]
  rw [List.reverse_eq_nil_iff, List.dropWhile_eq_nil_iff]
  constructor
  · intro h
    apply all_space_of_dropWhile
    intro c hc
    exact h c (by rwa [List.mem_reverse])
  · intro h c hc
    rw [List.mem_reverse] at hc
    exact h c ((List.dropWhile_sublist _).subset hc)

end TrimLemmas
theorem getParam_append_none {l₁ l₂ : List (Str × Str)} {k : Str}
    (h : getParam l₁ k = none) : getParam (l₁ ++ l₂) k = getParam l₂ k := by
  induction l₁ with
  | nil => simp
  | cons p rest ih =>
    obtain ⟨pk, pv⟩ := p
    rw [getParam] at h
    by_cases hk : pk = k
    · simp [hk] at h
    · rw [if_neg hk] at h
      simp only [List.cons_append, getParam, if_neg hk]
      exact ih h

theorem getParam_append_some {l₁ l₂ : List (Str × Str)} {k : Str} {v : Str}
    (h : getParam l₁ k = some v) : getParam (l₁ ++ l₂) k = some v := by
  induction l₁ with
  | nil => simp [getParam] at h
  | cons p rest ih =>
    obtain ⟨pk, pv⟩ := p
    rw [getParam] at h
    by_cases hk : pk = k
    · rw [if_pos hk] at h
      simp only [List.cons_append, getParam, if_pos hk]
      exact h
    · rw [if_neg hk] at h
      simp only [List.cons_append, getParam, if_neg hk]
      exact ih h

theorem getParam_pIf_self (c : Bool) (k v : Str) :
    getParam (pIf c k v) k = if c then some v else none := by
  cases c <;> simp [pIf, getParam]

theorem getParam_pIf_ne (c : Bool) {k k' : Str} (v : Str) (h : k ≠ k') :
    getParam (pIf c k v) k' = none := by
  cases c <;> simp [pIf, getParam, h]

theorem getParam_pIf_append_ne {l : List (Str × Str)} (c : Bool) {k k' : Str}
    (v : Str) (h : k ≠ k') : getParam (pIf c k v ++ l) k' = getParam l k' := by
  exact getParam_append_none (getParam_pIf_ne c v h)

section DashboardCodecLemmas

theorem getParam_pIf_append_self {l : List (Str × Str)} (c : Bool) (k v : Str)
    (hrest : getParam l k = none) :
    getParam (pIf c k v ++ l) k = if c then some v else none := by
  cases c
  · simpa [pIf] using hrest
  · simp [pIf, getParam]

theorem getParam_update_search (f : FilterOptions) (srt : SortOptions)
    (pg rp : JSNum) :
    getParam (Dashboard.updateURLParams f srt pg rp) (str "search")
      = if (!f.search.isEmpty) then some f.search else none := by
  unfold Dashboard.updateURLParams
  simp only [List.append_assoc]
  rw [getParam_pIf_append_self]
  rw [getParam_pIf_append_ne _ _ (by decide), getParam_pIf_append_ne _ _ (by decide),
    getParam_pIf_append_ne _ _ (by decide), getParam_pIf_append_ne _ _ (by decide),
    getParam_pIf_append_ne _ _ (by decide), getParam_pIf_append_ne _ _ (by decide),
    getParam_pIf_append_ne _ _ (by decide)]
  exact getParam_pIf_ne _ _ (by decide)

theorem getParam_update_status (f : FilterOptions) (srt : SortOptions)
    (pg rp : JSNum) :
    getParam (Dashboard.updateURLParams f srt pg rp) (str "status")
      = if (!f.status.isEmpty) then some (joinComma f.status) else none := by
  unfold Dashboard.updateURLParams
  simp only [List.append_assoc]
  rw [getParam_pIf_append_ne _ _ (by decide)]
  rw [getParam_pIf_append_self]
  rw [getParam_pIf_append_ne _ _ (by decide), getParam_pIf_append_ne _ _ (by decide),
    getParam_pIf_append_ne _ _ (by decide), getParam_pIf_append_ne _ _ (by decide),
    getParam_pIf_append_ne _ _ (by decide), getParam_pIf_append_ne _ _ (by decide)]
  exact getParam_pIf_ne _ _ (by decide)

theorem getParam_update_schoolIds (f : FilterOptions) (srt : SortOptions)
    (pg rp : JSNum) :
    getParam (Dashboard.updateURLParams f srt pg rp) (str "schoolIds")
      = if (!f.schoolIds.isEmpty) then some (joinComma f.schoolIds) else none := by
  unfold Dashboard.updateURLParams
  simp only [List.append_assoc]
  rw [getParam_pIf_append_ne _ _ (by decide), getParam_pIf_append_ne _ _ (by decide)]
  rw [getParam_pIf_append_self]
  rw [getParam_pIf_append_ne _ _ (by decide), getParam_pIf_append_ne _ _ (by decide),
    getParam_pIf_append_ne _ _ (by decide), getParam_pIf_append_ne _ _ (by decide),
    getParam_pIf_append_ne _ _ (by decide)]
  exact getParam_pIf_ne _ _ (by decide)

theorem getParam_update_dateFrom (f : FilterOptions) (srt : SortOptions)
    (pg rp : JSNum) :
    getParam (Dashboard.updateURLParams f srt pg rp) (str "dateFrom")
      = if (!f.dateFrom.isEmpty) then some f.dateFrom else none := by
  unfold Dashboard.updateURLParams
  simp only [List.append_assoc]
  rw [getParam_pIf_append_ne _ _ (by decide), getParam_pIf_append_ne _ _ (by decide),
    getParam_pIf_append_ne _ _ (by decide)]
  rw [getParam_pIf_append_self]
  rw [getParam_pIf_append_ne _ _ (by decide), getParam_pIf_append_ne _ _ (by decide),
    getParam_pIf_append_ne _ _ (by decide), getParam_pIf_append_ne _ _ (by decide)]
  exact getParam_pIf_ne _ _ (by decide)

theorem getParam_update_dateTo (f : FilterOptions) (srt : SortOptions)
    (pg rp : JSNum) :
    getParam (Dashboard.updateURLParams f srt pg rp) (str "dateTo")
      = if (!f.dateTo.isEmpty) then some f.dateTo else none := by
  unfold Dashboard.updateURLParams
  simp only [List.append_assoc]
  rw [getParam_pIf_append_ne _ _ (by decide), getParam_pIf_append_ne _ _ (by decide),
    getParam_pIf_append_ne _ _ (by decide), getParam_pIf_append_ne _ _ (by decide)]
  rw [getParam_pIf_append_self]
  rw [getParam_pIf_append_ne _ _ (by decide), getParam_pIf_append_ne _ _ (by decide),
    getParam_pIf_append_ne _ _ (by decide)]
  exact getParam_pIf_ne _ _ (by decide)

theorem getParam_update_sortField (f : FilterOptions) (srt : SortOptions)
    (pg rp : JSNum) :
    getParam (Dashboard.updateURLParams f srt pg rp) (str "sortField")
      = if (!srt.field.isEmpty) then some srt.field else none := by
  unfold Dashboard.updateURLParams
  simp only [List.append_assoc]
  rw [getParam_pIf_append_ne _ _ (by decide), getParam_pIf_append_ne _ _ (by decide),
    getParam_pIf_append_ne _ _ (by decide), getParam_pIf_append_ne _ _ (by decide),
    getParam_pIf_append_ne _ _ (by decide)]
  rw [getParam_pIf_append_self]
  rw [getParam_pIf_append_ne _ _ (by decide), getParam_pIf_append_ne _ _ (by decide)]
  exact getParam_pIf_ne _ _ (by decide)

theorem getParam_update_sortDirection (f : FilterOptions) (srt : SortOptions)
    (pg rp : JSNum) :
    getParam (Dashboard.updateURLParams f srt pg rp) (str "sortDirection")
      = if (!srt.direction.isEmpty) then some srt.direction else none := by
  unfold Dashboard.updateURLParams
  simp only [List.append_assoc]
  rw [getParam_pIf_append_ne _ _ (by decide), getParam_pIf_append_ne _ _ (by decide),
    getParam_pIf_append_ne _ _ (by decide), getParam_pIf_append_ne _ _ (by decide),
    getParam_pIf_append_ne _ _ (by decide), getParam_pIf_append_ne _ _ (by decide)]
  rw [getParam_pIf_append_self]
  rw [getParam_pIf_append_ne _ _ (by decide)]
  exact getParam_pIf_ne _ _ (by decide)

theorem getParam_update_page (f : FilterOptions) (srt : SortOptions)
    (pg rp : JSNum) :
    getParam (Dashboard.updateURLParams f srt pg rp) (str "page")
      = if jsGtOne pg then some (jsNumToString pg) else none := by
  unfold Dashboard.updateURLParams
  simp only [List.append_assoc]
  rw [getParam_pIf_append_ne _ _ (by decide), getParam_pIf_append_ne _ _ (by decide),
    getParam_pIf_append_ne _ _ (by decide), getParam_pIf_append_ne _ _ (by decide),
    getParam_pIf_append_ne _ _ (by decide), getParam_pIf_append_ne _ _ (by decide),
    getParam_pIf_append_ne _ _ (by decide)]
  rw [getParam_pIf_append_self]
  exact getParam_pIf_ne _ _ (by decide)

theorem getParam_update_limit (f : FilterOptions) (srt : SortOptions)
    (pg rp : JSNum) :
    getParam (Dashboard.updateURLParams f srt pg rp) (str "limit")
      = if jsNeTen rp then some (jsNumToString rp) else none := by
  unfold Dashboard.updateURLParams
  simp only [List.append_assoc]
  rw [getParam_pIf_append_ne _ _ (by decide), getParam_pIf_append_ne _ _ (by decide),
    getParam_pIf_append_ne _ _ (by decide), getParam_pIf_append_ne _ _ (by decide),
    getParam_pIf_append_ne _ _ (by decide), getParam_pIf_append_ne _ _ (by decide),
    getParam_pIf_append_ne _ _ (by decide), getParam_pIf_append_ne _ _ (by decide)]
  rw [getParam_pIf_self]

end DashboardCodecLemmas

theorem mem_statusLits_comma_free : ∀ x ∈ statusLits, ∀ c ∈ x, c ≠ ',' := by decide

theorem mem_sortableFields_ne_nil : ∀ x ∈ sortableFields, x ≠ [] := by decide

theorem jsNumToString_pos_ne_nil (n : Int) (h : 1 ≤ n) :
    (jsNumToString (some n)).isEmpty = false := by
  rw [jsNumToString, if_neg (by omega)]
  cases hnc : natToChars n.toNat with
  | nil => exact absurd hnc (natToChars_ne_nil n.toNat)
  | cons a l => rfl

theorem hydrate_status_field (l : List Str) (h : ∀ x ∈ l, ∀ c ∈ x, c ≠ ',') :
    (match (if (!l.isEmpty) then some (joinComma l) else none) with
      | some v => splitComma v
      | none => ([] : List Str)) = l := by
  cases l with
  | nil => rfl
  | cons x xs =>
    simp only [List.isEmpty_cons, Bool.not_false, if_pos]
    exact splitComma_joinComma (x :: xs) (by simp) h

theorem hydrate_str_field (v d : Str) :
    jsOrStr (if (!v.isEmpty) then some v else none) d
      = if v.isEmpty then d else v := by
  cases v <;> simp [jsOrStr]

theorem hydrate_page_field (p : Int) (hp : 1 ≤ p) :
    jsParseInt (jsOrStr
      (if jsGtOne (some p) then some (jsNumToString (some p)) else none)
      (str "1")) = some p := by
  by_cases h1 : 1 < p
  · rw [jsGtOne]
    simp only [decide_eq_true_eq, if_pos h1, jsOrStr,
      jsNumToString_pos_ne_nil p hp, Bool.false_eq_true, if_false]
    exact jsParseInt_jsNumToString_pos p hp
  · have : p = 1 := by omega
    subst this
    decide

theorem hydrate_limit_field (r : Int) (hr : 1 ≤ r) :
    jsParseInt (jsOrStr
      (if jsNeTen (some r) then some (jsNumToString (some r)) else none)
      (str "10")) = some r := by
  by_cases h10 : r = 10
  · subst h10; decide
  · rw [jsNeTen]
    simp only [ne_eq, decide_eq_true_eq, if_pos h10, jsOrStr,
      jsNumToString_pos_ne_nil r hr, Bool.false_eq_true, if_false]
    exact jsParseInt_jsNumToString_pos r hr

/-- CLAIM C1 (amended).  URL codec round-trip for the Dashboard view: for
every Query State whose fields lie in their declared domains (statuses a
subset of success/pending/failed/cancelled, positive integer page and page
size, comma-free search and date strings, a sortable sort field, asc or
desc direction) and — the amendment — whose school ids are also free of
the comma delimiter, hydrating the parameter bag produced by
updateURLParams yields the same Query State. -/
theorem dashboard_url_roundtrip (s : Dashboard.QueryState)
    (hdom : Dashboard.inDeclaredDomain s)
    (hids : ∀ x ∈ s.filters.schoolIds, ',' ∉ x) :
    Dashboard.hydrateFromURL (Dashboard.encode s) = s := by
  obtain ⟨hst, hcp, hrp, hse, hdf, hdt, hsf, hsd⟩ := hdom
  obtain ⟨⟨st, si, se, df, dt⟩, ⟨sf, sd⟩, cp, rp⟩ := s
  simp only at hst hcp hrp hse hdf hdt hsf hsd hids
  rw [Dashboard.encode]
  rw [Dashboard.hydrateFromURL]
  simp only [getParam_update_search, getParam_update_status,
    getParam_update_schoolIds, getParam_update_dateFrom, getParam_update_dateTo,
    getParam_update_sortField, getParam_update_sortDirection,
    getParam_update_page, getParam_update_limit]
  obtain ⟨p, rfl⟩ : ∃ p, cp = some p := by
    cases cp with
    | none => exact absurd hcp (by simp [jsPosInt])
    | some p => exact ⟨p, rfl⟩
  obtain ⟨r, rfl⟩ : ∃ r, rp = some r := by
    cases rp with
    | none => exact absurd hrp (by simp [jsPosInt])
    | some r => exact ⟨r, rfl⟩
  have hp : 1 ≤ p := by simpa [jsPosInt] using hcp
  have hr : 1 ≤ r := by simpa [jsPosInt] using hrp
  simp only [Dashboard.QueryState.mk.injEq, FilterOptions.mk.injEq,
    SortOptions.mk.injEq]
  refine ⟨⟨?_, ?_, ?_, ?_, ?_⟩, ⟨?_, ?_⟩, ?_, ?_⟩
  · exact hydrate_status_field st fun x hx => mem_statusLits_comma_free x (hst x hx)
  · exact hydrate_status_field si fun x hx c hc => fun hcc => hids x hx (hcc ▸ hc)
  · rw [hydrate_str_field]
    cases se with
    | nil => rfl
    | cons a l => rfl
  · rw [hydrate_str_field]
    cases df with
    | nil => rfl
    | cons a l => rfl
  · rw [hydrate_str_field]
    cases dt with
    | nil => rfl
    | cons a l => rfl
  · rw [hydrate_str_field]
    cases hsfe : sf with
    | nil => exact absurd hsf (by rw [hsfe]; decide)
    | cons a l => rfl
  · rcases hsd with h | h <;> subst h <;> decide
  · exact hydrate_page_field p hp
  · exact hydrate_limit_field r hr

/-- CLAIM C1 (witness): the amended round-trip theorem applied at a
concrete in-domain state with comma-free school ids. -/
theorem dashboard_url_roundtrip_witness :
    Dashboard.inDeclaredDomain c1WitnessState ∧
    (∀ x ∈ c1WitnessState.filters.schoolIds, ',' ∉ x) ∧
    Dashboard.hydrateFromURL (Dashboard.encode c1WitnessState) = c1WitnessState :=
  ⟨by decide, by decide,
    dashboard_url_roundtrip c1WitnessState (by decide) (by decide)⟩

/-- CLAIM C1 (counterexample to the claim as stated): a Query State inside
the claim's declared domains — its school id is an opaque identifier
string containing a comma — that does not survive the round trip: the
comma-join of updateURLParams and the comma-split of the hydration turn
the single id a,b into the two ids a and b. -/
theorem dashboard_url_roundtrip_counterexample :
    Dashboard.inDeclaredDomain c1CounterexampleState ∧
    Dashboard.hydrateFromURL (Dashboard.encode c1CounterexampleState)
      ≠ c1CounterexampleState := by decide

/-- CLAIM C2 (counterexample to the claim as stated): encoding the default
Query State does not produce an empty parameter set — updateURLParams
emits sortField and sortDirection whenever they are non-empty, which at
the default state they are. -/
theorem encode_default_counterexample :
    Dashboard.encode defaultQueryState
        = [(str "sortField", str "payment_time"),
           (str "sortDirection", str "desc")] ∧
    Dashboard.encode defaultQueryState ≠ [] := by decide

/-- CLAIM C2 (amended).  updateURLParams emits the search, status,
schoolIds, dateFrom, dateTo, page and limit parameters exactly when the
corresponding field differs from its default (empty filters, page 1, page
size 10), but emits sortField and sortDirection whenever they are
non-empty — including at their defaults.  Consequently encoding the
default Query State produces exactly the two sort parameters, in both the
Dashboard serializer and the school-view serializer. -/
theorem updateURLParams_emission :
    (∀ (f : FilterOptions) (srt : SortOptions) (pg rp : JSNum),
      getParam (Dashboard.updateURLParams f srt pg rp) (str "search")
        = (if (!f.search.isEmpty) then some f.search else none)
      ∧ getParam (Dashboard.updateURLParams f srt pg rp) (str "status")
        = (if (!f.status.isEmpty) then some (joinComma f.status) else none)
      ∧ getParam (Dashboard.updateURLParams f srt pg rp) (str "schoolIds")
        = (if (!f.schoolIds.isEmpty) then some (joinComma f.schoolIds) else none)
      ∧ getParam (Dashboard.updateURLParams f srt pg rp) (str "dateFrom")
        = (if (!f.dateFrom.isEmpty) then some f.dateFrom else none)
      ∧ getParam (Dashboard.updateURLParams f srt pg rp) (str "dateTo")
        = (if (!f.dateTo.isEmpty) then some f.dateTo else none)
      ∧ getParam (Dashboard.updateURLParams f srt pg rp) (str "sortField")
        = (if (!srt.field.isEmpty) then some srt.field else none)
      ∧ getParam (Dashboard.updateURLParams f srt pg rp) (str "sortDirection")
        = (if (!srt.direction.isEmpty) then some srt.direction else none)
      ∧ getParam (Dashboard.updateURLParams f srt pg rp) (str "page")
        = (if jsGtOne pg then some (jsNumToString pg) else none)
      ∧ getParam (Dashboard.updateURLParams f srt pg rp) (str "limit")
        = (if jsNeTen rp then some (jsNumToString rp) else none))
    ∧ Dashboard.encode defaultQueryState
        = [(str "sortField", str "payment_time"), (str "sortDirection", str "desc")]
    ∧ SchoolTransactionsUrl.updateURLParams defaultSchoolUrlState emptyFilters
        { field := str "payment_time", direction := str "desc" } (some 1)
        = [(str "sortField", str "payment_time"), (str "sortDirection", str "desc")] := by
  refine ⟨fun f srt pg rp => ?_, by decide, by decide⟩
  exact ⟨getParam_update_search f srt pg rp, getParam_update_status f srt pg rp,
    getParam_update_schoolIds f srt pg rp, getParam_update_dateFrom f srt pg rp,
    getParam_update_dateTo f srt pg rp, getParam_update_sortField f srt pg rp,
    getParam_update_sortDirection f srt pg rp, getParam_update_page f srt pg rp,
    getParam_update_limit f srt pg rp⟩

/-- CLAIM C3 (counterexample to the claim as stated): the status-dropdown
selection of the URL-synchronized school view is a filter-changing
operation that does not reset the page — from page 5 it stays on
page 5. -/
theorem filter_reset_counterexample :
    (SchoolTransactionsUrl.handleStatusFilterChange (str "success")
        c3State).pagination.currentPage = some 5 ∧
    (some (5 : Int)) ≠ (some (1 : Int)) ∧
    (SchoolTransactionsUrl.handleStatusFilterChange (str "success")
        c3State).filters.status = [str "success"] := by decide

/-- CLAIM C3 (amended).  Every filter-changing operation — search-text
change, status toggle, status-dropdown selection, school-id toggle, date
change — resets pagination.currentPage to 1 for every prior state, in the
Transactions view, the Dashboard view and the basic and URL-synchronized
school views, with one exception: the URL-synchronized school view's
status-dropdown handler leaves pagination entirely unchanged. -/
theorem filter_mutators_reset_page :
    (∀ (v : Str) (st : Transactions.ViewState),
       (Transactions.handleSearch v st).pagination.currentPage = some 1
       ∧ (Transactions.handleStatusFilter v st).pagination.currentPage = some 1
       ∧ (Transactions.handleSchoolFilter v st).pagination.currentPage = some 1)
    ∧ (∀ (v : Str) (st : Dashboard.ViewState),
       (Dashboard.handleSearch v st).pagination.currentPage = some 1
       ∧ (Dashboard.handleStatusFilterChange v st).pagination.currentPage = some 1
       ∧ (Dashboard.handleDateFromChange v st).pagination.currentPage = some 1)
    ∧ (∀ (v : Str) (st : SchoolTransactionsBasic.ViewState),
       (SchoolTransactionsBasic.handleSearch v st).pagination.currentPage = some 1
       ∧ (SchoolTransactionsBasic.handleStatusFilter v st).pagination.currentPage = some 1)
    ∧ (∀ (v : Str) (st : SchoolTransactionsUrl.ViewState),
       (SchoolTransactionsUrl.handleSearch v st).pagination.currentPage = some 1
       ∧ (SchoolTransactionsUrl.handleStatusFilterChange v st).pagination
           = st.pagination) := by
  refine ⟨fun v st => ⟨rfl, rfl, rfl⟩, fun v st => ⟨rfl, rfl, rfl⟩,
    fun v st => ⟨rfl, rfl⟩, fun v st => ⟨rfl, ?_⟩⟩
  rw [SchoolTransactionsUrl.handleStatusFilterChange]
  split <;> rfl

/-- CLAIM C4.  handleSort — identical in all four views (sortStep) — flips
the direction when the clicked field equals the current sort field (asc to
desc and desc to asc, so two successive clicks on the current field
restore the starting direction), defaults to ascending when the field
differs, always installs the clicked field, and never touches
pagination. -/
theorem handleSort_toggle :
    ∀ (srt : SortOptions) (f : Str),
      (srt.field = f → srt.direction = str "asc" →
        (sortStep srt f).direction = str "desc")
      ∧ (srt.field = f → srt.direction = str "desc" →
        (sortStep srt f).direction = str "asc")
      ∧ (srt.field ≠ f → (sortStep srt f).direction = str "asc")
      ∧ (sortStep srt f).field = f
      ∧ (srt.field = f → (srt.direction = str "asc" ∨ srt.direction = str "desc") →
        (sortStep (sortStep srt f) f).direction = srt.direction)
      ∧ (∀ st : Transactions.ViewState,
          (Transactions.handleSort f st).pagination = st.pagination)
      ∧ (∀ st : Dashboard.ViewState,
          (Dashboard.handleSort f st).pagination = st.pagination)
      ∧ (∀ st : SchoolTransactionsBasic.ViewState,
          (SchoolTransactionsBasic.handleSort f st).pagination = st.pagination)
      ∧ (∀ st : SchoolTransactionsUrl.ViewState,
          (SchoolTransactionsUrl.handleSort f st).pagination = st.pagination) := by
  intro srt f
  refine ⟨?_, ?_, ?_, rfl, ?_, fun st => rfl, fun st => rfl, fun st => rfl, fun st => rfl⟩
  · intro h1 h2
    rw [sortStep, if_pos ⟨h1, h2⟩]
  · intro h1 h2
    rw [sortStep, if_neg]
    rintro ⟨-, ha⟩
    rw [h2] at ha
    exact absurd ha (by decide)
  · intro h1
    rw [sortStep, if_neg]
    rintro ⟨hf, -⟩
    exact h1 hf
  · intro h1 h2
    rcases h2 with h2 | h2
    · have hin : sortStep srt f = { field := f, direction := str "desc" } := by
        rw [sortStep, if_pos ⟨h1, h2⟩]
      have hne : str "desc" ≠ str "asc" := by decide
      rw [hin, sortStep, if_neg (by rintro ⟨-, h⟩; exact hne h)]
      exact h2.symm
    · have hin : sortStep srt f = { field := f, direction := str "asc" } := by
        rw [sortStep, if_neg (by rintro ⟨-, h⟩; rw [h2] at h; exact absurd h (by decide))]
      rw [hin, sortStep, if_pos ⟨rfl, rfl⟩]
      exact h2.symm

/-- CLAIM C4 (witness): the toggle theorem applied at concrete sorts — a
click on the current ascending field yields descending, and two clicks on
the current descending field restore descending. -/
theorem handleSort_toggle_witness :
    (sortStep { field := str "payment_time", direction := str "asc" }
        (str "payment_time")).direction = str "desc" ∧
    (sortStep (sortStep { field := str "status", direction := str "desc" }
        (str "status")) (str "status")).direction = str "desc" :=
  ⟨(handleSort_toggle { field := str "payment_time", direction := str "asc" }
      (str "payment_time")).1 rfl rfl,
   (handleSort_toggle { field := str "status", direction := str "desc" }
      (str "status")).2.2.2.2.1 rfl (Or.inr rfl)⟩

/-! ## Parameter multiplicity lemmas -/

theorem paramValues_nil (k : Str) : paramValues [] k = [] := rfl

theorem paramValues_append (l₁ l₂ : List (Str × Str)) (k : Str) :
    paramValues (l₁ ++ l₂) k = paramValues l₁ k ++ paramValues l₂ k :=
  List.filterMap_append l₁ l₂ _

theorem paramValues_cons_ne {k' k : Str} (v : Str) (l : List (Str × Str))
    (h : k' ≠ k) : paramValues ((k', v) :: l) k = paramValues l k := by
  simp [paramValues, List.filterMap_cons, if_neg h]

theorem paramValues_pIf_ne (c : Bool) {k' k : Str} (v : Str) (h : k' ≠ k) :
    paramValues (pIf c k' v) k = [] := by
  cases c <;> simp [pIf, paramValues, List.filterMap_cons, if_neg h]

theorem paramValues_map_self (vals : List Str) (k : Str) :
    paramValues (vals.map (fun v => (k, v))) k = vals := by
  induction vals with
  | nil => rfl
  | cons v vs ih => simp [paramValues, List.filterMap_cons] at ih ⊢; exact ih

theorem paramValues_map_ne (vals : List Str) {k k' : Str} (h : k ≠ k') :
    paramValues (vals.map (fun v => (k, v))) k' = [] := by
  induction vals with
  | nil => rfl
  | cons v vs ih =>
    simp only [List.map_cons]
    rw [paramValues_cons_ne _ _ h]
    exact ih

theorem paramValues_sortChunk (srt : Option SortOptions) (k : Str)
    (h1 : str "sortBy" ≠ k) (h2 : str "sortOrder" ≠ k) :
    paramValues
      (match srt with
        | some s => [(str "sortBy", s.field), (str "sortOrder", s.direction)]
        | none => ([] : List (Str × Str))) k = [] := by
  cases srt with
  | none => rfl
  | some s =>
    rw [paramValues_cons_ne _ _ h1, paramValues_cons_ne _ _ h2]
    rfl

theorem paramValues_getAll_status (pg : PaginationOptions)
    (srt : Option SortOptions) (f : FilterOptions) :
    paramValues (transactionService.getAllTransactions pg srt (some f)).params
      (str "status") = f.status := by
  rw [transactionService.getAllTransactions.eq_def]
  simp only [paramValues_append]
  rw [paramValues_cons_ne _ _ (by decide), paramValues_cons_ne _ _ (by decide),
    paramValues_nil, paramValues_sortChunk srt _ (by decide) (by decide),
    paramValues_map_self, paramValues_map_ne _ (by decide),
    paramValues_pIf_ne _ _ (by decide), paramValues_pIf_ne _ _ (by decide),
    paramValues_pIf_ne _ _ (by decide)]
  simp

theorem paramValues_getAll_school_id (pg : PaginationOptions)
    (srt : Option SortOptions) (f : FilterOptions) :
    paramValues (transactionService.getAllTransactions pg srt (some f)).params
      (str "school_id") = f.schoolIds := by
  rw [transactionService.getAllTransactions.eq_def]
  simp only [paramValues_append]
  rw [paramValues_cons_ne _ _ (by decide), paramValues_cons_ne _ _ (by decide),
    paramValues_nil, paramValues_sortChunk srt _ (by decide) (by decide),
    paramValues_map_self, paramValues_map_ne _ (by decide),
    paramValues_pIf_ne _ _ (by decide), paramValues_pIf_ne _ _ (by decide),
    paramValues_pIf_ne _ _ (by decide)]
  simp

/-- CLAIM C5.  With pagination page 1 limit 10, the default sort and a
filter whose search text is abc, getAllTransactions issues a GET on
/transactions whose parameter list contains page=1, limit=10,
sortBy=payment_time, sortOrder=desc and search=abc; and for the
multi-valued filters the parameter list carries exactly one same-named
pair per value: the status values under repeated status keys and the
school ids under repeated school_id keys (repeated keys, not a comma
join). -/
theorem getAllTransactions_request :
    (∀ f : FilterOptions, f.search = str "abc" →
      (transactionService.getAllTransactions
          { page := some 1, limit := some 10 }
          (some { field := str "payment_time", direction := str "desc" })
          (some f)).path = str "/transactions"
      ∧ (str "page", str "1") ∈ (transactionService.getAllTransactions
          { page := some 1, limit := some 10 }
          (some { field := str "payment_time", direction := str "desc" })
          (some f)).params
      ∧ (str "limit", str "10") ∈ (transactionService.getAllTransactions
          { page := some 1, limit := some 10 }
          (some { field := str "payment_time", direction := str "desc" })
          (some f)).params
      ∧ (str "sortBy", str "payment_time") ∈ (transactionService.getAllTransactions
          { page := some 1, limit := some 10 }
          (some { field := str "payment_time", direction := str "desc" })
          (some f)).params
      ∧ (str "sortOrder", str "desc") ∈ (transactionService.getAllTransactions
          { page := some 1, limit := some 10 }
          (some { field := str "payment_time", direction := str "desc" })
          (some f)).params
      ∧ (str "search", str "abc") ∈ (transactionService.getAllTransactions
          { page := some 1, limit := some 10 }
          (some { field := str "payment_time", direction := str "desc" })
          (some f)).params)
    ∧ (∀ (pg : PaginationOptions) (srt : Option SortOptions) (f : FilterOptions),
        paramValues (transactionService.getAllTransactions pg srt (some f)).params
          (str "status") = f.status
        ∧ paramValues (transactionService.getAllTransactions pg srt (some f)).params
          (str "school_id") = f.schoolIds) := by
  constructor
  · intro f h
    refine ⟨rfl, ?_, ?_, ?_, ?_, ?_⟩
    · exact List.mem_append_left _ (List.mem_append_left _ (by decide))
    · exact List.mem_append_left _ (List.mem_append_left _ (by decide))
    · exact List.mem_append_left _ (List.mem_append_right _ (by decide))
    · exact List.mem_append_left _ (List.mem_append_right _ (by decide))
    · refine List.mem_append_right _ ?_
      refine List.mem_append_right _ ?_
      rw [h]
      decide
  · exact fun pg srt f =>
      ⟨paramValues_getAll_status pg srt f, paramValues_getAll_school_id pg srt f⟩

/-- CLAIM C5 (witness): the request theorem applied at a concrete filter
with search abc, two statuses and one school id. -/
theorem getAllTransactions_request_witness :
    (str "search", str "abc") ∈ (transactionService.getAllTransactions
        { page := some 1, limit := some 10 }
        (some { field := str "payment_time", direction := str "desc" })
        (some { status := [str "success", str "pending"],
                schoolIds := [str "65b0e6293e9f76a9694d84b4"],
                search := str "abc", dateFrom := [], dateTo := [] })).params
    ∧ paramValues (transactionService.getAllTransactions
        { page := some 1, limit := some 10 }
        (some { field := str "payment_time", direction := str "desc" })
        (some { status := [str "success", str "pending"],
                schoolIds := [str "65b0e6293e9f76a9694d84b4"],
                search := str "abc", dateFrom := [], dateTo := [] })).params
        (str "status") = [str "success", str "pending"] :=
  ⟨((getAllTransactions_request.1 _ rfl).2.2.2.2.2),
   (getAllTransactions_request.2 _ _ _).1⟩

/-- CLAIM C6 (counterexample to the claim as stated): a non-numeric page or
limit value does not fall back to the default — parseInt yields NaN, which
the hydrated state keeps (no error is raised, but currentPage becomes NaN
rather than 1 and rowsPerPage NaN rather than 10). -/
theorem hydrate_malformed_counterexample :
    (Dashboard.hydrateFromURL [(str "page", str "abc")]).currentPage = none
    ∧ (Dashboard.hydrateFromURL [(str "limit", str "xyz")]).rowsPerPage = none
    ∧ defaultQueryState.currentPage = some 1
    ∧ defaultQueryState.rowsPerPage = some 10
    ∧ (none : JSNum) ≠ some 1 ∧ (none : JSNum) ≠ some 10 := by decide

/-- CLAIM C6 (amended).  The hydration is a total function that depends
only on the recognised keys (unrecognised keys are ignored); an absent or
empty page or limit parameter falls back to its default (page 1, page size
10); a present value goes through JS parseInt semantics — so a value with
no leading digits yields NaN (see the counterexample), not the default. -/
theorem hydrate_tolerant :
    (∀ p₁ p₂ : List (Str × Str),
      (∀ k ∈ recognizedKeys, getParam p₁ k = getParam p₂ k) →
      Dashboard.hydrateFromURL p₁ = Dashboard.hydrateFromURL p₂)
    ∧ (∀ p : List (Str × Str), getParam p (str "page") = none →
        (Dashboard.hydrateFromURL p).currentPage = some 1)
    ∧ (∀ p : List (Str × Str), getParam p (str "limit") = none →
        (Dashboard.hydrateFromURL p).rowsPerPage = some 10)
    ∧ (∀ (p : List (Str × Str)) (v : Str), getParam p (str "page") = some v →
        (Dashboard.hydrateFromURL p).currentPage
          = jsParseInt (if v.isEmpty then str "1" else v))
    ∧ (∀ (p : List (Str × Str)) (v : Str), getParam p (str "limit") = some v →
        (Dashboard.hydrateFromURL p).rowsPerPage
          = jsParseInt (if v.isEmpty then str "10" else v)) := by
  refine ⟨?_, ?_, ?_, ?_, ?_⟩
  · intro p₁ p₂ h
    rw [Dashboard.hydrateFromURL, Dashboard.hydrateFromURL]
    rw [h (str "status") (by decide), h (str "schoolIds") (by decide),
      h (str "search") (by decide), h (str "dateFrom") (by decide),
      h (str "dateTo") (by decide), h (str "sortField") (by decide),
      h (str "sortDirection") (by decide), h (str "page") (by decide),
      h (str "limit") (by decide)]
  · intro p h
    simp only [Dashboard.hydrateFromURL]
    rw [h]
    decide
  · intro p h
    simp only [Dashboard.hydrateFromURL]
    rw [h]
    decide
  · intro p v h
    simp only [Dashboard.hydrateFromURL]
    rw [h]
    rfl
  · intro p v h
    simp only [Dashboard.hydrateFromURL]
    rw [h]
    rfl

/-- CLAIM C6 (witness): hydration at concrete bags — an unrecognised key
changes nothing, and the tolerated-default clauses applied at concrete
inputs. -/
theorem hydrate_tolerant_witness :
    Dashboard.hydrateFromURL [(str "page", str "5"), (str "zzz", str "junk")]
      = Dashboard.hydrateFromURL [(str "page", str "5")]
    ∧ (Dashboard.hydrateFromURL []).currentPage = some 1
    ∧ (Dashboard.hydrateFromURL []).rowsPerPage = some 10 :=
  ⟨hydrate_tolerant.1 _ _ (by decide),
   hydrate_tolerant.2.1 [] (by decide),
   hydrate_tolerant.2.2.1 [] (by decide)⟩

/-- CLAIM C7.  A status lookup whose identifier is empty or
whitespace-only after trimming issues zero requests and yields the
validation error synchronously; any identifier with a non-whitespace
character issues exactly the one GET to /transactions/status/{id} and no
validation error. -/
theorem statusCheck_validation :
    ∀ orderId : Str,
      ((∀ c ∈ orderId, isSpaceChar c = true) →
        StatusCheck.handleSearch orderId
          = ([], some (str "Please enter a transaction ID")))
      ∧ ((¬ ∀ c ∈ orderId, isSpaceChar c = true) →
        StatusCheck.handleSearch orderId
          = ([transactionService.getTransactionStatus orderId], none)) := by
  intro orderId
  constructor
  · intro h
    have ht : jsTrim orderId = [] := (jsTrim_eq_nil_iff orderId).mpr h
    simp [StatusCheck.handleSearch, ht]
  · intro h
    have ht : jsTrim orderId ≠ [] := fun hh => h ((jsTrim_eq_nil_iff orderId).mp hh)
    cases htr : jsTrim orderId with
    | nil => exact absurd htr ht
    | cons a l => simp [StatusCheck.handleSearch, htr]

/-- CLAIM C7 (witness): the validation theorem at a whitespace-only and at
a non-empty identifier. -/
theorem statusCheck_validation_witness :
    StatusCheck.handleSearch (str "   ")
      = ([], some (str "Please enter a transaction ID"))
    ∧ StatusCheck.handleSearch (str " ORDER_001 ")
      = ([transactionService.getTransactionStatus (str " ORDER_001 ")], none) :=
  ⟨(statusCheck_validation (str "   ")).1 (by decide),
   (statusCheck_validation (str " ORDER_001 ")).2 (by decide)⟩

/-- CLAIM C8.  A 401 response status on any call removes both the stored
token and the stored user (leaving no stale credential) and forces
navigation to /login; any other error status — including an absent one —
leaves storage and location unchanged. -/
theorem interceptor_401_clears_credentials :
    ∀ (status : Option Int) (store : LocalStorage) (location : Str),
      (status = some 401 →
        responseInterceptorOnError status store location
          = ({ store with token := none, user := none }, str "/login"))
      ∧ (status ≠ some 401 →
        responseInterceptorOnError status store location = (store, location)) :=
  fun status store location =>
    ⟨fun h => by rw [responseInterceptorOnError, if_pos h],
     fun h => by rw [responseInterceptorOnError, if_neg h]⟩

/-- CLAIM C8 (witness): the interceptor theorem at a concrete 401 and a
concrete 500. -/
theorem interceptor_401_witness :
    responseInterceptorOnError (some 401)
        { token := some (str "tok"), user := some (str "usr") } (str "/dashboard")
      = ({ token := none, user := none }, str "/login")
    ∧ responseInterceptorOnError (some 500)
        { token := some (str "tok"), user := some (str "usr") } (str "/dashboard")
      = ({ token := some (str "tok"), user := some (str "usr") }, str "/dashboard") :=
  ⟨(interceptor_401_clears_credentials (some 401)
      { token := some (str "tok"), user := some (str "usr") } (str "/dashboard")).1 rfl,
   (interceptor_401_clears_credentials (some 500)
      { token := some (str "tok"), user := some (str "usr") } (str "/dashboard")).2
      (by decide)⟩

/-- CLAIM C9.  clearFilters — in the Transactions view and in the basic
school view — resets the filters to the empty filter record and the page
to 1, and modifies nothing else: the sort (field and direction), every
other pagination component, the filter panel flag and (in the school view)
the selected school are untouched.  The page size is a literal 10 in both
views, so it is unchanged by construction. -/
theorem clearFilters_frame :
    ∀ (st : Transactions.ViewState) (st2 : SchoolTransactionsBasic.ViewState),
      (Transactions.clearFilters st).filters = emptyFilters
      ∧ (Transactions.clearFilters st).pagination.currentPage = some 1
      ∧ (Transactions.clearFilters st).sort = st.sort
      ∧ (Transactions.clearFilters st).pagination.totalPages = st.pagination.totalPages
      ∧ (Transactions.clearFilters st).pagination.totalCount = st.pagination.totalCount
      ∧ (Transactions.clearFilters st).pagination.hasNextPage = st.pagination.hasNextPage
      ∧ (Transactions.clearFilters st).pagination.hasPrevPage = st.pagination.hasPrevPage
      ∧ (Transactions.clearFilters st).showFilters = st.showFilters
      ∧ (SchoolTransactionsBasic.clearFilters st2).filters = emptyFilters
      ∧ (SchoolTransactionsBasic.clearFilters st2).pagination.currentPage = some 1
      ∧ (SchoolTransactionsBasic.clearFilters st2).sort = st2.sort
      ∧ (SchoolTransactionsBasic.clearFilters st2).selectedSchoolId
          = st2.selectedSchoolId
      ∧ (SchoolTransactionsBasic.clearFilters st2).pagination.totalPages
          = st2.pagination.totalPages
      ∧ (SchoolTransactionsBasic.clearFilters st2).pagination.totalCount
          = st2.pagination.totalCount
      ∧ (SchoolTransactionsBasic.clearFilters st2).pagination.hasNextPage
          = st2.pagination.hasNextPage
      ∧ (SchoolTransactionsBasic.clearFilters st2).pagination.hasPrevPage
          = st2.pagination.hasPrevPage
      ∧ (SchoolTransactionsBasic.clearFilters st2).showFilters = st2.showFilters :=
  fun _ _ =>
    ⟨rfl, rfl, rfl, rfl, rfl, rfl, rfl, rfl, rfl, rfl, rfl, rfl, rfl, rfl, rfl,
     rfl, rfl⟩

/-- CLAIM C10.  The scoped client getTransactionsBySchool never reads
filters.schoolIds and never emits a school_id query parameter: two filter
values that differ only in schoolIds (same school id path segment,
pagination, sort, statuses, dates and search) produce identical requests,
and no pair of its parameter list ever carries the school_id key. -/
theorem schoolScope_ignores_schoolIds :
    (∀ (schoolId : Str) (pg : PaginationOptions) (srt : Option SortOptions)
        (f₁ f₂ : FilterOptions),
      f₁.status = f₂.status → f₁.search = f₂.search →
      f₁.dateFrom = f₂.dateFrom → f₁.dateTo = f₂.dateTo →
      transactionService.getTransactionsBySchool schoolId pg srt (some f₁)
        = transactionService.getTransactionsBySchool schoolId pg srt (some f₂))
    ∧ (∀ (schoolId : Str) (pg : PaginationOptions) (srt : Option SortOptions)
        (fo : Option FilterOptions),
      paramValues
        (transactionService.getTransactionsBySchool schoolId pg srt fo).params
        (str "school_id") = []) := by
  constructor
  · intro schoolId pg srt f₁ f₂ h1 h2 h3 h4
    obtain ⟨s1, i1, se1, d1, t1⟩ := f₁
    obtain ⟨s2, i2, se2, d2, t2⟩ := f₂
    simp only at h1 h2 h3 h4
    subst h1; subst h2; subst h3; subst h4
    rfl
  · intro schoolId pg srt fo
    rw [transactionService.getTransactionsBySchool.eq_def]
    simp only [paramValues_append]
    rw [paramValues_cons_ne _ _ (by decide), paramValues_cons_ne _ _ (by decide),
      paramValues_nil, paramValues_sortChunk srt _ (by decide) (by decide)]
    cases fo with
    | none => rfl
    | some f =>
      simp only [paramValues_append]
      rw [paramValues_map_ne _ (by decide), paramValues_pIf_ne _ _ (by decide),
        paramValues_pIf_ne _ _ (by decide), paramValues_pIf_ne _ _ (by decide)]
      rfl

/-- CLAIM C10 (witness): the independence theorem at two concrete filters
differing only in a non-empty schoolIds set — the scoped request silently
ignores it. -/
theorem schoolScope_ignores_schoolIds_witness :
    transactionService.getTransactionsBySchool (str "65b0e6293e9f76a9694d84b4")
        { page := some 1, limit := some 10 }
        (some { field := str "payment_time", direction := str "desc" })
        (some { status := [str "success"], schoolIds := [str "65b0e6293e9f76a9694d84b5"],
                search := [], dateFrom := [], dateTo := [] })
      = transactionService.getTransactionsBySchool (str "65b0e6293e9f76a9694d84b4")
        { page := some 1, limit := some 10 }
        (some { field := str "payment_time", direction := str "desc" })
        (some { status := [str "success"], schoolIds := [],
                search := [], dateFrom := [], dateTo := [] }) :=
  schoolScope_ignores_schoolIds.1 _ _ _ _ _ rfl rfl rfl rfl
